import Mathlib

/-!
Shallow embedding of the ivanadhii/ai-platform repository: the scikit-learn
training pipeline built in `backend/app/services/ml_trainer.py`, the Celery
training task in `backend/tasks/training_tasks.py`, the column analysis in
`backend/app/services/file_processor.py`, the prediction endpoint in
`backend/app/routers/inference.py`, the upload endpoint in
`backend/app/routers/upload.py`, and the standalone classifier in
`Classification_Program_ML/production_classifier.py`.
Python floats that only ever enter threshold comparisons and arithmetic
identities are modelled as rationals.
-/

namespace AIPlatform

/-! ## `ml_trainer.py`: pipeline construction (`MLTrainer.create_ensemble_model`) -/

/-- Configuration of `sklearn.feature_extraction.text.TfidfVectorizer`
as instantiated at `ml_trainer.py` lines 117-123. -/
structure TfidfVectorizerCfg where
  max_features : Nat
  ngram_min : Nat
  ngram_max : Nat
  min_df : Nat
  max_df : ℚ
  stop_words : Option (List String)
deriving DecidableEq, Repr

/-- The individual estimators instantiated at `ml_trainer.py` lines 126-128. -/
inductive EstimatorCfg
  | logisticRegression (random_state : Nat) (max_iter : Nat)
  | multinomialNB (alpha : ℚ)
  | svc (kernel : String) (probability : Bool) (random_state : Nat)
deriving DecidableEq, Repr

/-- The `voting` keyword of `sklearn.ensemble.VotingClassifier`. -/
inductive VotingMode
  | hard
  | soft
deriving DecidableEq, Repr

/-- Configuration of `sklearn.ensemble.VotingClassifier` as instantiated at
`ml_trainer.py` lines 131-138.  `weights` is the `weights` keyword argument;
the code does not pass it, so it keeps its sklearn default `None`
(every estimator counts with equal weight). -/
structure VotingClassifierCfg where
  estimators : List (String × EstimatorCfg)
  voting : VotingMode
  weights : Option (List ℚ)
deriving DecidableEq, Repr

/-- A step of the sklearn `Pipeline` built at `ml_trainer.py` lines 141-144. -/
inductive PipelineStep
  | vectorizer (cfg : TfidfVectorizerCfg)
  | classifier (cfg : VotingClassifierCfg)
deriving DecidableEq, Repr

/-- Embedding of `MLTrainer.create_ensemble_model` (`ml_trainer.py` lines 113-146):
the returned two-step pipeline: the `vectorizer` step followed by the
`classifier` ensemble step. -/
def create_ensemble_model : List (String × PipelineStep) :=
  let vectorizer : TfidfVectorizerCfg :=
    { max_features := 5000
      ngram_min := 1
      ngram_max := 3
      min_df := 2
      max_df := 95 / 100
      stop_words := none }
  let logistic := EstimatorCfg.logisticRegression 42 1000
  let naive_bayes := EstimatorCfg.multinomialNB (1 / 10)
  let svm := EstimatorCfg.svc "linear" true 42
  let ensemble : VotingClassifierCfg :=
    { estimators := [("logistic", logistic), ("naive_bayes", naive_bayes), ("svm", svm)]
      voting := VotingMode.soft
      weights := none }
  [("vectorizer", PipelineStep.vectorizer vectorizer),
   ("classifier", PipelineStep.classifier ensemble)]

/-- Embedding of `MLTrainer.train_model` (`ml_trainer.py` lines 148-187): it fits the pipeline
returned by `create_ensemble_model` (line 159: `model = self.create_ensemble_model()`);
`test_size` does not influence which model is constructed. -/
def train_model_fitted_pipeline (_test_size : ℚ) : List (String × PipelineStep) :=
  create_ensemble_model

/-! ## `training_tasks.py`: the Celery task `train_ml_model` -/

/-- The retry call made by a Celery task (`self.retry(exc=e, countdown=..., max_retries=...)`). -/
structure CeleryRetryCall where
  countdown : Nat
  max_retries : Nat
deriving DecidableEq, Repr

/-- Points at which the body of `train_ml_model` (`training_tasks.py`
lines 44-101) can raise: reading the dataset file (lines 49-54, including the
`ValueError` for an unsupported format), preprocessing (lines 62-66),
training (line 71), and saving the model (line 76). -/
inductive FailPoint
  | loadDataset
  | preprocess
  | train
  | save
deriving DecidableEq, Repr

/-- The `except` branch of `train_ml_model` (`training_tasks.py` lines 103-108):
on any exception the task calls `self.retry(exc=e, countdown=60, max_retries=2)`;
a run that raises no exception schedules no retry. -/
def train_ml_model_retry : Option FailPoint → Option CeleryRetryCall
  | none => none
  | some _ => some { countdown := 60, max_retries := 2 }

/-- The metrics dictionary produced by `MLTrainer.train_model` and threaded
into the final `update_job_status` call (`training_tasks.py` lines 84-93). -/
structure TrainResults where
  accuracy : ℚ
  precisionScore : ℚ
  recallScore : ℚ
  f1_score : ℚ
  confusion_matrix : List (List Nat)
  model_path : String
  vectorizer_path : String
deriving DecidableEq, Repr

/-- One call to `update_job_status` as issued by `train_ml_model`. -/
structure StatusUpdate where
  status : String
  progress : Nat
  message : String
  results : Option TrainResults
deriving DecidableEq, Repr

/-- The sequence of `update_job_status` calls issued by one execution of
`train_ml_model` (`training_tasks.py` lines 44-108): the successful run makes
the five calls at lines 46, 56, 68, 73 and 79-94; a run that raises at
`FailPoint` `p` makes the calls preceding `p` and then the `failed` call at
line 105 whose message is `"Training failed: "` followed by the exception text. -/
def train_ml_model_updates (failure : Option FailPoint) (res : TrainResults)
    (err : String) : List StatusUpdate :=
  let u10 : StatusUpdate := ⟨"preprocessing", 10, "Loading dataset...", none⟩
  let u20 : StatusUpdate := ⟨"preprocessing", 20, "Preprocessing text...", none⟩
  let u40 : StatusUpdate := ⟨"training", 40, "Training ensemble model...", none⟩
  let u80 : StatusUpdate := ⟨"training", 80, "Saving model...", none⟩
  let u100 : StatusUpdate := ⟨"completed", 100, "Training completed successfully!", some res⟩
  let ufail : StatusUpdate := ⟨"failed", 0, "Training failed: " ++ err, none⟩
  match failure with
  | none => [u10, u20, u40, u80, u100]
  | some FailPoint.loadDataset => [u10, ufail]
  | some FailPoint.preprocess => [u10, u20, ufail]
  | some FailPoint.train => [u10, u20, u40, ufail]
  | some FailPoint.save => [u10, u20, u40, u80, ufail]

/-- The `training_jobs` row as touched by `update_job_status`
(`training_tasks.py` lines 110-152). -/
structure TrainingJobRow where
  status : String
  progress : Nat
  current_step : String
  accuracy : Option ℚ
  precisionScore : Option ℚ
  recallScore : Option ℚ
  f1_score : Option ℚ
  confusion_matrix : Option (List (List Nat))
  model_path : Option String
  vectorizer_path : Option String
  error_message : Option String
  completed_at_set : Bool
  started_at_set : Bool
deriving DecidableEq, Repr

/-- A fresh training-job row before the task has reported anything. -/
def initialJobRow : TrainingJobRow :=
  { status := "queued", progress := 0, current_step := "", accuracy := none,
    precisionScore := none, recallScore := none, f1_score := none, confusion_matrix := none,
    model_path := none, vectorizer_path := none, error_message := none,
    completed_at_set := false, started_at_set := false }

/-- Embedding of `update_job_status` (`training_tasks.py` lines 110-152): always writes
`status`, `progress` and `current_step`; when `status == "completed"` and a
results dict is given it also persists the metrics, artifact paths and
`completed_at`; when `status == "failed"` it writes the message into
`error_message`; when `status == "training"` it stamps `started_at`. -/
def update_job_status (row : TrainingJobRow) (u : StatusUpdate) : TrainingJobRow :=
  let base := { row with status := u.status, progress := u.progress,
                         current_step := u.message }
  if u.status = "completed" then
    match u.results with
    | some res =>
        { base with accuracy := some res.accuracy, precisionScore := some res.precisionScore,
                    recallScore := some res.recallScore, f1_score := some res.f1_score,
                    confusion_matrix := some res.confusion_matrix,
                    model_path := some res.model_path,
                    vectorizer_path := some res.vectorizer_path,
                    completed_at_set := true }
    | none => base
  else if u.status = "failed" then
    { base with error_message := some u.message }
  else if u.status = "training" then
    { base with started_at_set := true }
  else base

/-- The row state after a full task execution: every `update_job_status`
call applied in order to the fresh row. -/
def runTrainingTask (failure : Option FailPoint) (res : TrainResults)
    (err : String) : TrainingJobRow :=
  (train_ml_model_updates failure res err).foldl update_job_status initialJobRow

/-! ## `file_processor.py`: column statistics and type detection -/

/-- Insertion of a value into an ascending list (helper for sorting,
mirroring that pandas quantiles are computed on the sorted values). -/
def insertAsc (x : ℚ) : List ℚ → List ℚ
  | [] => [x]
  | y :: ys => if x ≤ y then x :: y :: ys else y :: insertAsc x ys

/-- Ascending sort of a list of rationals. -/
def sortAsc (xs : List ℚ) : List ℚ := xs.foldr insertAsc []

/-- Embedding of `pandas.Series.quantile(q)` with the default linear interpolation:
with the values sorted ascending as `v_0, ..., v_(n-1)`, the quantile is
`v_i + (h - i) * (v_(i+1) - v_i)` where `h = q * (n - 1)` and `i = floor h`.
Empty input (never produced by the callers below) yields 0. -/
def quantileLinear (xs : List ℚ) (q : ℚ) : ℚ :=
  let s := sortAsc xs
  let n := s.length
  if n = 0 then 0
  else
    let h : ℚ := q * ((n : ℚ) - 1)
    let i : Nat := (Rat.floor h).toNat
    let lo := s.getD i 0
    let hi := s.getD (min (i + 1) (n - 1)) 0
    lo + (h - (Rat.floor h : ℚ)) * (hi - lo)

/-- Embedding of `FileProcessor._count_outliers` (`file_processor.py` lines 253-263):
`Q1 = data.quantile(0.25)`, `Q3 = data.quantile(0.75)`, `IQR = Q3 - Q1`,
and the count of values strictly below `Q1 - 1.5*IQR` or strictly above
`Q3 + 1.5*IQR`. -/
def count_outliers (data : List ℚ) : Nat :=
  let q1 := quantileLinear data (1 / 4)
  let q3 := quantileLinear data (3 / 4)
  let iqr := q3 - q1
  let lower_bound := q1 - 3 / 2 * iqr
  let upper_bound := q3 + 3 / 2 * iqr
  data.countP fun x => decide (x < lower_bound) || decide (upper_bound < x)

/-- The statistics dict built by `FileProcessor._calculate_statistics`
(`file_processor.py` lines 214-229) for a column of type `number`
(the float standard deviation is omitted; the claims do not touch it). -/
structure NumberStats where
  minVal : ℚ
  maxVal : ℚ
  mean : ℚ
  median : ℚ
  outliers_count : Nat
deriving DecidableEq, Repr

/-- Embedding of `FileProcessor._calculate_statistics` (`file_processor.py` lines 214-229)
restricted to the number-type branch: drop the nulls and, when at
least one value remains, report min, max, mean, median and
`outliers_count = self._count_outliers(non_null_data)`; otherwise the stats
dict stays empty (`none`). A column is a list of optional cells, `none`
standing for a null. -/
def calculate_statistics_number (col : List (Option ℚ)) : Option NumberStats :=
  let nonNull := col.filterMap id
  match nonNull with
  | [] => none
  | v :: vs =>
      some { minVal := vs.foldl min v
             maxVal := vs.foldl max v
             mean := (v + vs.sum) / ((vs.length : ℚ) + 1)
             median := quantileLinear (v :: vs) (1 / 2)
             outliers_count := count_outliers (v :: vs) }

/-- The pandas dtype of a column, as discriminated by
`FileProcessor._detect_column_type` via `pd.api.types.is_numeric_dtype`,
`is_integer_dtype`, `is_datetime64_any_dtype` and `is_bool_dtype`. -/
inductive ColDtype
  | intDtype
  | floatDtype
  | datetimeDtype
  | boolDtype
  | objectDtype
deriving DecidableEq, Repr

/-- A non-null cell of an object-dtype column, characterised by the two
library predicates `_detect_column_type` applies to it: whether
pandas `to_numeric` with coercion parses it. -/
structure ObjCell where
  numericParsable : Bool
deriving DecidableEq, Repr

/-- Embedding of `FileProcessor._detect_column_type` (`file_processor.py` lines 146-186),
returning the `(type, data_type)` pair. For an object-dtype column the cells
matter: `numeric_percentage` is the fraction of non-null values parseable as
numeric, and strictly above 0.8 yields the pair `number, convertible_numeric`;
otherwise the coercing `pd.to_datetime` attempt is made, which
returns `date, convertible_date` unless that call itself raises
(modelled by `toDatetimeRaises`), in which case `text, string`.
Non-object dtypes ignore the cells. -/
def detect_column_type (dtype : ColDtype) (cells : List (Option ObjCell))
    (toDatetimeRaises : Bool) : String × String :=
  let non_null_data := cells.filterMap id
  if non_null_data.length = 0 then ("text", "empty")
  else
    match dtype with
    | ColDtype.intDtype => ("number", "integer")
    | ColDtype.floatDtype => ("number", "float")
    | ColDtype.datetimeDtype => ("date", "datetime")
    | ColDtype.boolDtype => ("boolean", "boolean")
    | ColDtype.objectDtype =>
        let numeric_convertible := (non_null_data.filter (·.numericParsable)).length
        let numeric_percentage : ℚ :=
          (numeric_convertible : ℚ) / (non_null_data.length : ℚ)
        if 8 / 10 < numeric_percentage then ("number", "convertible_numeric")
        else if toDatetimeRaises then ("text", "string")
        else ("date", "convertible_date")

/-! ## `production_classifier.py`: the standalone OSS classifier -/

/-- Maximum of a nonempty list given as head and tail; the Python `max`. -/
def listMax (p : ℚ) (ps : List ℚ) : ℚ := ps.foldl max p

/-- A fitted sklearn binary-text model as used by `OSSClassifier.classify`
after TF-IDF and domain features are stacked: `predict(X)[0]` gives an
integer label and `predict_proba(X)[0]` the per-class probabilities.
Feature extraction itself is library code, so the model is a function of
the preprocessed text. -/
structure SkTextModel where
  predictLbl : String → Int
  proba : String → List ℚ

/-- The loadable state of `OSSClassifier`: `self.model` and `self.vectorizer`
are `None` unless `load_model` succeeded. -/
structure OSSClassifierState where
  model : Option SkTextModel
  vectorizerLoaded : Bool

/-- Embedding of `_get_confidence_level` (`production_classifier.py` lines 110-121). -/
def get_confidence_level (confidence : ℚ) : String :=
  if 9 / 10 ≤ confidence then "very_high"
  else if 8 / 10 ≤ confidence then "high"
  else if 6 / 10 ≤ confidence then "medium"
  else "low"

/-- The dict `label_map` at `production_classifier.py` line 90, mapping the
integer label 0 to `layanan` and 1 to `pengaduan`; any other key raises
`KeyError` (`none`). -/
def label_map (k : Int) : Option String :=
  if k = 0 then some "layanan"
  else if k = 1 then some "pengaduan"
  else none

/-- The dict returned by `OSSClassifier.classify`
(`production_classifier.py` lines 92-102). -/
structure ClassifyResult where
  original_text : String
  processed_text : String
  prediction : String
  confidence : ℚ
  probabilities : List (String × ℚ)
  confidence_level : String

/-- Embedding of `OSSClassifier.classify` (`production_classifier.py` lines 66-102).
`preprocess` is `DataPreprocessor.preprocess_single` (regex-based text
cleaning, passed as a parameter). With no loaded model/vectorizer the
method returns the error dict; otherwise it predicts on the preprocessed
text, takes `confidence = max(probabilities)`, builds the two-entry
probabilities dict from `probabilities[0]` and `probabilities[1]` (an
`IndexError` if fewer than two are returned), and maps the integer label
through `label_map` (a `KeyError` escapes if the label is not 0 or 1). -/
def classify (preprocess : String → String) (st : OSSClassifierState)
    (text : String) : Except String ClassifyResult :=
  match st.model, st.vectorizerLoaded with
  | some m, true =>
      let processed_text := preprocess text
      let prediction := m.predictLbl processed_text
      match label_map prediction, m.proba processed_text with
      | some lbl, p0 :: p1 :: rest =>
          let confidence := listMax p0 (p1 :: rest)
          Except.ok
            { original_text := text
              processed_text := processed_text
              prediction := lbl
              confidence := confidence
              probabilities := [("layanan", p0), ("pengaduan", p1)]
              confidence_level := get_confidence_level confidence }
      | none, _ => Except.error "KeyError"
      | _, _ => Except.error "IndexError"
  | _, _ => Except.error "Model not loaded"

/-! ## `inference.py`: the prediction endpoint -/

/-- A row of the deployed-models table as read by the `predict` route. -/
structure DeployedModelRow where
  id : String
  status : String
  model_path : String
  version : String
  api_calls_count : Nat
deriving DecidableEq, Repr

/-- A persisted model artifact as used by the route: `model.predict([text])[0]`
stringified, and `model.predict_proba([text])[0]`. -/
structure ArtifactModel where
  predictLbl : String → String
  proba : String → List ℚ

/-- The HTTP error outcomes of the `predict` route. -/
inductive HttpError
  | notFound (detail : String)
  | serverError (detail : String)

/-- The successful response body of the `predict` route
(`processing_time_ms` is wall-clock time and is not modelled). -/
structure PredictionResponse where
  prediction : String
  confidence : ℚ
  model_version : String

/-- The commit of the incremented `api_calls_count`: the first row
matching the filter of the route gets its counter bumped, the rest are
unchanged. -/
def incrementApiCalls (model_id : String) : List DeployedModelRow → List DeployedModelRow
  | [] => []
  | r :: rs =>
      if r.id = model_id ∧ r.status = "deployed" then
        { r with api_calls_count := r.api_calls_count + 1 } :: rs
      else r :: incrementApiCalls model_id rs

/-- Embedding of the route `predict` (`inference.py` lines 18-65). The route selects the row with
the given id and status `"deployed"`; absent such a row it raises 404 and
leaves the table untouched. Otherwise it loads the artifact at the
`model_path` of the row (`store` maps paths to artifacts; a missing or unloadable
artifact raises, caught as a 500, table untouched), computes
`confidence = float(max(prediction_proba))` (a `max()` on an empty sequence
also raises, 500), increments the `api_calls_count` of the row, commits, and
returns the response. -/
def predict_route (store : String → Option ArtifactModel)
    (db : List DeployedModelRow) (model_id : String) (text : String) :
    List DeployedModelRow × Except HttpError PredictionResponse :=
  match db.find? (fun r => decide (r.id = model_id) && decide (r.status = "deployed")) with
  | none => (db, Except.error (HttpError.notFound "Model not found or not deployed"))
  | some model_info =>
      match store model_info.model_path with
      | none => (db, Except.error (HttpError.serverError "Prediction failed"))
      | some m =>
          match m.proba text with
          | [] => (db, Except.error (HttpError.serverError "Prediction failed"))
          | p :: ps =>
              (incrementApiCalls model_id db,
               Except.ok { prediction := m.predictLbl text
                           confidence := listMax p ps
                           model_version := model_info.version })

/-! ## `upload.py`: the file-upload endpoint -/

/-- Embedding of `pathlib.PurePath.suffix` of a filename: with `name` the component after
the last slash and `i` the position of the last dot in `name`, the suffix
is `name[i:]` when `0 < i < len(name) - 1` and empty otherwise. -/
def pathSuffix (filename : String) : String :=
  let name := ((filename.toList.reverse.takeWhile fun c => c ≠ '/').reverse)
  let n := name.length
  match name.reverse.findIdx? fun c => c = '.' with
  | none => ""
  | some j =>
      let i := n - 1 - j
      if 0 < i ∧ i < n - 1 then String.mk (name.drop i) else ""

/-- Embedding of `Path(file.filename).suffix.lower()` (`upload.py` line 42). -/
def suffixLower (filename : String) : String :=
  String.mk ((pathSuffix filename).toList.map Char.toLower)

/-- The set `allowed_extensions` (`upload.py` line 41). -/
def allowed_extensions : List String := [".csv", ".xlsx", ".xls", ".json"]

/-- The 50 MB limit of `upload.py` line 50: `50 * 1024 * 1024`. -/
def uploadSizeLimit : Nat := 50 * 1024 * 1024

/-- The persisted side effects the upload route can make: files written to
`uploaded_files/` and rows added to the `datasets` / `dataset_columns`
tables (rows counted; their payload does not matter to the claims). -/
structure UploadState where
  savedFiles : List String
  datasetRows : Nat
  columnRows : Nat
deriving DecidableEq, Repr

/-- The outcomes of the upload route. -/
inductive UploadOutcome
  | badRequest (detail : String)
  | notFound (detail : String)
  | serverError (detail : String)
  | created
deriving DecidableEq, Repr

/-- What `FileProcessor.process_file` reports back to the route when it
succeeds: the number of column records to create. -/
structure ProcessedFileInfo where
  columnsCount : Nat
deriving DecidableEq, Repr

/-- Embedding of `upload_file` (`upload.py` lines 27-133). In order: an empty filename is
a 400; an extension outside `allowed_extensions` is a 400; a truthy
`file.size` above the 50 MB limit is a 400; a project the caller does not
own is a 404 (`projectOwned`); then the `try` block saves the file under a
fresh name, runs the processor (`processResult`; `none` means it raised, in
which case the saved file is unlinked again and the route answers 500), and
on success inserts one dataset row and one row per column, then commits. -/
def upload_file (st : UploadState) (filename : String) (size : Option Nat)
    (projectOwned : Bool) (savedName : String)
    (processResult : Option ProcessedFileInfo) : UploadState × UploadOutcome :=
  if filename = "" then (st, UploadOutcome.badRequest "No file provided")
  else if suffixLower filename ∉ allowed_extensions then
    (st, UploadOutcome.badRequest "File type not supported")
  else if (match size with | some n => decide (0 < n) && decide (uploadSizeLimit < n) | none => false) then
    (st, UploadOutcome.badRequest "File size exceeds 50MB limit")
  else if ¬ projectOwned then (st, UploadOutcome.notFound "Project not found")
  else
    let afterSave := { st with savedFiles := st.savedFiles ++ [savedName] }
    match processResult with
    | none => (st, UploadOutcome.serverError "File processing failed")
    | some info =>
        ({ afterSave with datasetRows := afterSave.datasetRows + 1,
                          columnRows := afterSave.columnRows + info.columnsCount },
         UploadOutcome.created)

/-! ## Accessors and concrete fixtures used in the statements below -/

/-- The `VotingClassifier` configuration sitting in the steps of a pipeline,
if any (the last classifier step wins, matching dict-like access). -/
def classifierStepOf (steps : List (String × PipelineStep)) : Option VotingClassifierCfg :=
  steps.foldr
    (fun s acc => match s.2 with
      | PipelineStep.classifier c => some c
      | _ => acc)
    none

/-- A two-class model fixture: always predicts label 0 with an even split. -/
def c6FixtureModel : SkTextModel :=
  { predictLbl := fun _ => 0, proba := fun _ => [1 / 2, 1 / 2] }

/-- Classifier state with `c6FixtureModel` loaded. -/
def c6FixtureState : OSSClassifierState :=
  { model := some c6FixtureModel, vectorizerLoaded := true }

/-- A two-class model fixture with probabilities 3/4 and 1/4. -/
def c10FixtureModel : SkTextModel :=
  { predictLbl := fun _ => 1, proba := fun _ => [3 / 4, 1 / 4] }

/-- Classifier state with `c10FixtureModel` loaded. -/
def c10FixtureState : OSSClassifierState :=
  { model := some c10FixtureModel, vectorizerLoaded := true }

/-- A one-row deployed-models table fixture. -/
def c8FixtureDb : List DeployedModelRow :=
  [{ id := "m1", status := "deployed", model_path := "path1", version := "v1",
     api_calls_count := 3 }]

/-- The row of `c8FixtureDb`. -/
def c8FixtureRow : DeployedModelRow :=
  { id := "m1", status := "deployed", model_path := "path1", version := "v1",
    api_calls_count := 3 }

/-- An artifact fixture served at path `"path1"`. -/
def c8FixtureModel : ArtifactModel :=
  { predictLbl := fun _ => "layanan", proba := fun _ => [3 / 4, 1 / 4] }

/-- The artifact store fixture backing `c8FixtureDb`. -/
def c8FixtureStore : String → Option ArtifactModel :=
  fun p => if p = "path1" then some c8FixtureModel else none

/-- A concrete metrics fixture for instantiating the training-task theorems. -/
def c7FixtureResults : TrainResults :=
  { accuracy := 83 / 100, precisionScore := 4 / 5, recallScore := 4 / 5,
    f1_score := 4 / 5, confusion_matrix := [[40, 2], [3, 35]],
    model_path := "trained_models/model_j.pkl",
    vectorizer_path := "trained_models/vectorizer_j.pkl" }

/-! ## Claim theorems -/

/-- C1: every training run fits the pipeline returned by
`create_ensemble_model`: a TF-IDF vectorizer step followed by a voting
ensemble whose estimators are exactly a Logistic Regression, a Multinomial
Naive Bayes and an SVM classifier, in that order. -/
theorem training_run_fits_tfidf_voting_ensemble (test_size : ℚ) :
    ∃ (v : TfidfVectorizerCfg) (e : VotingClassifierCfg),
      train_model_fitted_pipeline test_size =
        [("vectorizer", PipelineStep.vectorizer v),
         ("classifier", PipelineStep.classifier e)] ∧
      e.estimators =
        [("logistic", EstimatorCfg.logisticRegression 42 1000),
         ("naive_bayes", EstimatorCfg.multinomialNB (1 / 10)),
         ("svm", EstimatorCfg.svc "linear" true 42)] :=
  ⟨_, _, rfl, rfl⟩

/-- C2 counterexample: the `VotingClassifier` built by
`create_ensemble_model` passes no `weights` argument at all — the
`weights` field of the configuration is the sklearn default `none`, so there are
no (non-uniform) per-estimator weights. -/
theorem ensemble_has_no_custom_weights :
    (classifierStepOf create_ensemble_model).map VotingClassifierCfg.weights =
      some none ∧
    ¬ ∃ ws : List ℚ,
        (classifierStepOf create_ensemble_model).map VotingClassifierCfg.weights =
          some (some ws) := by
  refine ⟨rfl, ?_⟩
  rintro ⟨ws, h⟩
  simp [classifierStepOf, create_ensemble_model] at h

/-- C2 (amended): the ensemble is a soft-voting ensemble — the constituent
predicted probabilities of the constituent classifiers are combined — with
the default uniform
weighting (`weights=None`); no non-uniform per-estimator weights are used. -/
theorem ensemble_is_soft_voting_uniform :
    ∃ cfg, classifierStepOf create_ensemble_model = some cfg ∧
      cfg.voting = VotingMode.soft ∧ cfg.weights = none :=
  ⟨_, rfl, rfl, rfl⟩

/-- C3 counterexample: when a run of `train_ml_model` raises (here: during
training), the task explicitly schedules a retry via
`self.retry(exc=e, countdown=60, max_retries=2)` — a custom retry policy,
not the library default of no retry. -/
theorem training_task_schedules_custom_retry :
    train_ml_model_retry (some FailPoint.train) =
      some { countdown := 60, max_retries := 2 } ∧
    train_ml_model_retry (some FailPoint.train) ≠ none := by
  exact ⟨rfl, by decide⟩

/-- C3 (amended): whenever a training run raises an exception, the
background task schedules a custom retry with a 60-second countdown and a
cap of 2 retries. -/
theorem training_task_retry_policy (p : FailPoint) :
    train_ml_model_retry (some p) = some { countdown := 60, max_retries := 2 } :=
  rfl

/-- C7: over the status updates a training run persists to its job row,
progress never decreases among the non-failed updates; a successful run
reports exactly 10, 20, 40, 80, 100 in order; an update carries progress 100
exactly when its status is `completed`; a successful run leaves the row
`completed` at progress 100 with all metrics persisted; and a failing run
leaves the row `failed` at progress 0 with the error message persisted. -/
theorem training_job_progress_lifecycle (failure : Option FailPoint)
    (res : TrainResults) (err : String) :
    List.Chain' (· ≤ ·)
        (((train_ml_model_updates failure res err).filter
            fun u => decide (u.status ≠ "failed")).map StatusUpdate.progress) ∧
    (∀ u ∈ train_ml_model_updates failure res err,
        (u.progress = 100 ↔ u.status = "completed")) ∧
    (failure = none →
      (train_ml_model_updates failure res err).map StatusUpdate.progress =
          [10, 20, 40, 80, 100] ∧
      (runTrainingTask failure res err).status = "completed" ∧
      (runTrainingTask failure res err).progress = 100 ∧
      (runTrainingTask failure res err).accuracy = some res.accuracy ∧
      (runTrainingTask failure res err).precisionScore = some res.precisionScore ∧
      (runTrainingTask failure res err).recallScore = some res.recallScore ∧
      (runTrainingTask failure res err).f1_score = some res.f1_score ∧
      (runTrainingTask failure res err).confusion_matrix = some res.confusion_matrix) ∧
    (∀ p, failure = some p →
      (runTrainingTask failure res err).status = "failed" ∧
      (runTrainingTask failure res err).progress = 0 ∧
      (runTrainingTask failure res err).error_message =
        some ("Training failed: " ++ err)) := by
  cases failure with
  | none =>
      refine ⟨?_, ?_, ?_, ?_⟩
      · simp [train_ml_model_updates]
      · intro u hu
        simp [train_ml_model_updates] at hu
        rcases hu with h | h | h | h | h <;> subst h <;> simp
      · intro _
        refine ⟨rfl, ?_, ?_, ?_, ?_, ?_, ?_, ?_⟩ <;>
          simp [runTrainingTask, train_ml_model_updates, update_job_status,
                initialJobRow]
      · intro p hp; exact absurd hp (by simp)
  | some p =>
      refine ⟨?_, ?_, ?_, ?_⟩
      · cases p <;> simp [train_ml_model_updates]
      · intro u hu
        cases p <;> simp [train_ml_model_updates] at hu <;>
          rcases hu with h | h <;> first
            | (subst h; simp)
            | (rcases h with h | h <;> first
                | (subst h; simp)
                | (rcases h with h | h <;> first
                    | (subst h; simp)
                    | (rcases h with h | h <;> subst h <;> simp)))
      · intro h; exact absurd h (by simp)
      · intro q hq
        cases hq
        cases p <;>
          refine ⟨?_, ?_, ?_⟩ <;>
            simp [runTrainingTask, train_ml_model_updates, update_job_status,
                  initialJobRow]

/-- Witness for C7: a run that raises while training leaves the fixture
job row failed at progress 0 with the error message persisted. -/
theorem training_job_progress_lifecycle_witness :
    (runTrainingTask (some FailPoint.train) c7FixtureResults "boom").status = "failed" ∧
    (runTrainingTask (some FailPoint.train) c7FixtureResults "boom").progress = 0 ∧
    (runTrainingTask (some FailPoint.train) c7FixtureResults "boom").error_message =
      some ("Training failed: " ++ "boom") :=
  (training_job_progress_lifecycle (some FailPoint.train) c7FixtureResults
    "boom").2.2.2 FailPoint.train rfl

/-- C4: for a numeric column with at least one non-null value, the reported
`outliers_count` is the number of non-null values strictly below
`Q1 - 1.5*IQR` or strictly above `Q3 + 1.5*IQR`, with `Q1`, `Q3` the 25th
and 75th percentiles of the non-null values and `IQR = Q3 - Q1`. -/
theorem outliers_count_is_iqr_rule (col : List (Option ℚ))
    (h : col.filterMap id ≠ []) :
    ∃ s, calculate_statistics_number col = some s ∧
      s.outliers_count =
        ((col.filterMap id).filter fun x =>
          decide (x < quantileLinear (col.filterMap id) (1 / 4) -
              3 / 2 * (quantileLinear (col.filterMap id) (3 / 4) -
                quantileLinear (col.filterMap id) (1 / 4))) ||
          decide (quantileLinear (col.filterMap id) (3 / 4) +
              3 / 2 * (quantileLinear (col.filterMap id) (3 / 4) -
                quantileLinear (col.filterMap id) (1 / 4)) < x)).length := by
  rcases hv : col.filterMap id with _ | ⟨v, vs⟩
  · exact absurd hv h
  · refine ⟨{ minVal := vs.foldl min v, maxVal := vs.foldl max v,
              mean := (v + vs.sum) / ((vs.length : ℚ) + 1),
              median := quantileLinear (v :: vs) (1 / 2),
              outliers_count := count_outliers (v :: vs) }, ?_, ?_⟩
    · unfold calculate_statistics_number
      rw [hv]
    · simp only [hv, count_outliers, List.countP_eq_length_filter]

/-- Witness for C4: on the column `[1, null, 2, 3, 100]` the statistics are
produced and `outliers_count` counts exactly the value 100, which lies above
`Q3 + 1.5*IQR`. -/
theorem outliers_count_is_iqr_rule_witness :
    ([some 1, none, some 2, some 3, some 100] : List (Option ℚ)).filterMap id ≠ [] ∧
    (∃ s, calculate_statistics_number [some 1, none, some 2, some 3, some 100] = some s ∧
      s.outliers_count =
        ((([some 1, none, some 2, some 3, some 100] : List (Option ℚ)).filterMap id).filter fun x =>
          decide (x < quantileLinear (([some 1, none, some 2, some 3, some 100] : List (Option ℚ)).filterMap id) (1 / 4) -
              3 / 2 * (quantileLinear (([some 1, none, some 2, some 3, some 100] : List (Option ℚ)).filterMap id) (3 / 4) -
                quantileLinear (([some 1, none, some 2, some 3, some 100] : List (Option ℚ)).filterMap id) (1 / 4))) ||
          decide (quantileLinear (([some 1, none, some 2, some 3, some 100] : List (Option ℚ)).filterMap id) (3 / 4) +
              3 / 2 * (quantileLinear (([some 1, none, some 2, some 3, some 100] : List (Option ℚ)).filterMap id) (3 / 4) -
                quantileLinear (([some 1, none, some 2, some 3, some 100] : List (Option ℚ)).filterMap id) (1 / 4)) < x)).length) ∧
    (calculate_statistics_number [some 1, none, some 2, some 3, some 100]).map
        NumberStats.outliers_count = some 1 := by
  refine ⟨by decide, outliers_count_is_iqr_rule _ (by decide), ?_⟩
  have h1 : quantileLinear [1, 2, 3, 100] (1 / 4) = 7 / 4 := by
    norm_num [quantileLinear, sortAsc, insertAsc, Rat.floor,
      show ((0 : ℤ)).toNat = 0 from rfl, List.getElem_cons_succ,
      List.getElem_cons_zero]
  have h3 : quantileLinear [1, 2, 3, 100] (3 / 4) = 109 / 4 := by
    norm_num [quantileLinear, sortAsc, insertAsc, Rat.floor,
      show ((2 : ℤ)).toNat = 2 from rfl, List.getElem_cons_succ,
      List.getElem_cons_zero]
  have hco : count_outliers [1, 2, 3, 100] = 1 := by
    unfold count_outliers
    rw [h1, h3]
    simp only [List.countP_cons, List.countP_nil, Bool.or_eq_true,
      decide_eq_true_eq]
    norm_num
  simp only [calculate_statistics_number, List.filterMap_cons,
    List.filterMap_nil, id, Option.map]
  exact congrArg some hco

/-- Cross-multiplied form of the 80% threshold of `_detect_column_type`. -/
theorem eighty_percent_lt_iff (k n : ℕ) (hn : 0 < n) :
    ((8 : ℚ) / 10 < (k : ℚ) / (n : ℚ)) ↔ 4 * n < 5 * k := by
  rw [div_lt_div_iff₀ (by norm_num : (0 : ℚ) < 10)
    (by exact_mod_cast hn : (0 : ℚ) < (n : ℚ))]
  rw [show ((4 * n < 5 * k) ↔ ((4 * n : ℕ) : ℚ) < ((5 * k : ℕ) : ℚ)) from
    Nat.cast_lt.symm]
  push_cast
  constructor <;> intro h <;> linarith

/-- C5: an object-dtype column with at least one non-null value is detected
as `number, convertible_numeric` if and only if strictly more than 80%
of its non-null values parse as numeric (`4*n < 5*k` with `n` the non-null
count and `k` the parseable count), independently of whether the
`pd.to_datetime` attempt would raise. -/
theorem convertible_numeric_iff_eighty_percent (cells : List (Option ObjCell))
    (raises : Bool) (h : cells.filterMap id ≠ []) :
    ((detect_column_type ColDtype.objectDtype cells raises).2 =
        "convertible_numeric" ↔
      4 * (cells.filterMap id).length <
        5 * ((cells.filterMap id).filter (·.numericParsable)).length) ∧
    ((detect_column_type ColDtype.objectDtype cells raises).2 =
        "convertible_numeric" →
      (detect_column_type ColDtype.objectDtype cells raises).1 = "number") := by
  have hlen : (cells.filterMap id).length ≠ 0 := by
    simpa [List.length_eq_zero] using h
  have key := eighty_percent_lt_iff
    ((cells.filterMap id).filter (·.numericParsable)).length
    (cells.filterMap id).length (Nat.pos_of_ne_zero hlen)
  simp only [detect_column_type]
  rw [if_neg hlen]
  by_cases hq : (8 : ℚ) / 10 <
      (((cells.filterMap id).filter (·.numericParsable)).length : ℚ) /
        ((cells.filterMap id).length : ℚ)
  · rw [if_pos hq]
    exact ⟨⟨fun _ => key.mp hq, fun _ => rfl⟩, fun _ => rfl⟩
  · rw [if_neg hq]
    have hnot : ¬ 4 * (cells.filterMap id).length <
        5 * ((cells.filterMap id).filter (·.numericParsable)).length :=
      fun hc => hq (key.mpr hc)
    cases raises <;> simp only [Bool.false_eq_true, if_true, if_false] <;>
      exact ⟨⟨fun he => absurd he (by decide), fun hc => absurd hc hnot⟩,
             fun he => absurd he (by decide)⟩

/-- Witness for C5: a five-value object column whose values all parse as
numeric (100% > 80%) is detected as `convertible_numeric`. -/
theorem convertible_numeric_iff_eighty_percent_witness :
    (([some ⟨true⟩, some ⟨true⟩, some ⟨true⟩, some ⟨true⟩, some ⟨true⟩] :
        List (Option ObjCell)).filterMap id ≠ []) ∧
    (detect_column_type ColDtype.objectDtype
        [some ⟨true⟩, some ⟨true⟩, some ⟨true⟩, some ⟨true⟩, some ⟨true⟩]
        false).2 = "convertible_numeric" :=
  ⟨by decide,
   (convertible_numeric_iff_eighty_percent
      [some ⟨true⟩, some ⟨true⟩, some ⟨true⟩, some ⟨true⟩, some ⟨true⟩]
      false (by decide)).1.mpr (by decide)⟩

/-- C6: with a model and vectorizer loaded, and the model a two-class model
over the labels 0 and 1 that returns two class probabilities, `classify`
succeeds, its prediction is one of the two classes `layanan` and
`pengaduan`, and the probabilities dict has exactly those two keys. -/
theorem classify_two_classes (preprocess : String → String)
    (st : OSSClassifierState) (m : SkTextModel) (text : String)
    (hm : st.model = some m) (hv : st.vectorizerLoaded = true)
    (hcls : m.predictLbl (preprocess text) = 0 ∨
            m.predictLbl (preprocess text) = 1)
    (hp : ∃ p0 p1, m.proba (preprocess text) = [p0, p1]) :
    ∃ r, classify preprocess st text = Except.ok r ∧
      (r.prediction = "layanan" ∨ r.prediction = "pengaduan") ∧
      r.probabilities.map Prod.fst = ["layanan", "pengaduan"] := by
  obtain ⟨p0, p1, hpr⟩ := hp
  rcases hcls with h0 | h1
  · refine ⟨{ original_text := text, processed_text := preprocess text,
              prediction := "layanan", confidence := listMax p0 [p1],
              probabilities := [("layanan", p0), ("pengaduan", p1)],
              confidence_level := get_confidence_level (listMax p0 [p1]) },
            ?_, Or.inl rfl, rfl⟩
    simp [classify, hm, hv, hpr, h0, label_map]
  · refine ⟨{ original_text := text, processed_text := preprocess text,
              prediction := "pengaduan", confidence := listMax p0 [p1],
              probabilities := [("layanan", p0), ("pengaduan", p1)],
              confidence_level := get_confidence_level (listMax p0 [p1]) },
            ?_, Or.inr rfl, rfl⟩
    simp [classify, hm, hv, hpr, h1, label_map]

/-- Witness for C6: the fixture model (always label 0, even split)
classifies any text as `layanan` with the two-key probabilities dict. -/
theorem classify_two_classes_witness :
    c6FixtureState.model = some c6FixtureModel ∧
    ∃ r, classify id c6FixtureState "SBU belum terbit" = Except.ok r ∧
      (r.prediction = "layanan" ∨ r.prediction = "pengaduan") ∧
      r.probabilities.map Prod.fst = ["layanan", "pengaduan"] :=
  ⟨rfl,
   classify_two_classes id c6FixtureState c6FixtureModel "SBU belum terbit"
     rfl rfl (Or.inl rfl) ⟨1 / 2, 1 / 2, rfl⟩⟩

/-- The exact threshold semantics of `_get_confidence_level`. -/
theorem get_confidence_level_spec (c : ℚ) :
    (get_confidence_level c = "very_high" ↔ 9 / 10 ≤ c) ∧
    (get_confidence_level c = "high" ↔ 8 / 10 ≤ c ∧ c < 9 / 10) ∧
    (get_confidence_level c = "medium" ↔ 6 / 10 ≤ c ∧ c < 8 / 10) ∧
    (get_confidence_level c = "low" ↔ c < 6 / 10) := by
  unfold get_confidence_level
  split_ifs with ha hb hc
  · refine ⟨⟨fun _ => ha, fun _ => rfl⟩, ⟨?_, ?_⟩, ⟨?_, ?_⟩, ⟨?_, ?_⟩⟩ <;>
      intro hx
    · exact absurd hx (by decide)
    · exact absurd ha (not_le.mpr hx.2)
    · exact absurd hx (by decide)
    · exact absurd ha (not_le.mpr (lt_of_lt_of_le hx.2 (by norm_num)))
    · exact absurd hx (by decide)
    · exact absurd ha (not_le.mpr (lt_of_lt_of_le hx (by norm_num)))
  · refine ⟨⟨?_, ?_⟩, ⟨fun _ => ⟨hb, not_le.mp ha⟩, fun _ => rfl⟩,
      ⟨?_, ?_⟩, ⟨?_, ?_⟩⟩ <;> intro hx
    · exact absurd hx (by decide)
    · exact absurd hx ha
    · exact absurd hx (by decide)
    · exact absurd hb (not_le.mpr hx.2)
    · exact absurd hx (by decide)
    · exact absurd hb (not_le.mpr (lt_of_lt_of_le hx (by norm_num)))
  · refine ⟨⟨?_, ?_⟩, ⟨?_, ?_⟩,
      ⟨fun _ => ⟨hc, not_le.mp hb⟩, fun _ => rfl⟩, ⟨?_, ?_⟩⟩ <;> intro hx
    · exact absurd hx (by decide)
    · exact absurd hx ha
    · exact absurd hx (by decide)
    · exact absurd hx.1 hb
    · exact absurd hx (by decide)
    · exact absurd hc (not_le.mpr hx)
  · refine ⟨⟨?_, ?_⟩, ⟨?_, ?_⟩, ⟨?_, ?_⟩,
      ⟨fun _ => not_le.mp hc, fun _ => rfl⟩⟩ <;> intro hx
    · exact absurd hx (by decide)
    · exact absurd hx ha
    · exact absurd hx (by decide)
    · exact absurd hx.1 hb
    · exact absurd hx (by decide)
    · exact absurd hx.1 hc

/-- C10: when the loaded model returns the two class probabilities
`[p0, p1]` with `p0, p1 ≥ 0` and `p0 + p1 = 1`, the returned confidence is
`max p0 p1`, which lies in `[1/2, 1]`, and the returned confidence level is
exactly the threshold bucket of `_get_confidence_level`: `very_high` iff
`c ≥ 0.9`, `high` iff `0.8 ≤ c < 0.9`, `medium` iff `0.6 ≤ c < 0.8`, and
`low` iff `c < 0.6`. -/
theorem classify_confidence_spec (preprocess : String → String)
    (st : OSSClassifierState) (m : SkTextModel) (text : String) (p0 p1 : ℚ)
    (hm : st.model = some m) (hv : st.vectorizerLoaded = true)
    (hcls : m.predictLbl (preprocess text) = 0 ∨
            m.predictLbl (preprocess text) = 1)
    (hpr : m.proba (preprocess text) = [p0, p1])
    (h0 : 0 ≤ p0) (h1 : 0 ≤ p1) (hsum : p0 + p1 = 1) :
    ∃ r, classify preprocess st text = Except.ok r ∧
      r.confidence = max p0 p1 ∧
      (1 / 2 : ℚ) ≤ r.confidence ∧ r.confidence ≤ 1 ∧
      r.confidence_level = get_confidence_level r.confidence ∧
      (r.confidence_level = "very_high" ↔ 9 / 10 ≤ r.confidence) ∧
      (r.confidence_level = "high" ↔
        8 / 10 ≤ r.confidence ∧ r.confidence < 9 / 10) ∧
      (r.confidence_level = "medium" ↔
        6 / 10 ≤ r.confidence ∧ r.confidence < 8 / 10) ∧
      (r.confidence_level = "low" ↔ r.confidence < 6 / 10) := by
  have hmax : (1 / 2 : ℚ) ≤ max p0 p1 ∧ max p0 p1 ≤ 1 := by
    rcases le_total p0 p1 with hle | hle
    · rw [max_eq_right hle]
      constructor <;> linarith
    · rw [max_eq_left hle]
      constructor <;> linarith
  have hspec := get_confidence_level_spec (max p0 p1)
  have hfold : listMax p0 [p1] = max p0 p1 := rfl
  have hok : ∃ r, classify preprocess st text = Except.ok r ∧
      r.confidence = max p0 p1 ∧
      r.confidence_level = get_confidence_level (max p0 p1) := by
    rcases hcls with hc0 | hc1
    · refine ⟨{ original_text := text, processed_text := preprocess text,
                prediction := "layanan", confidence := listMax p0 [p1],
                probabilities := [("layanan", p0), ("pengaduan", p1)],
                confidence_level := get_confidence_level (listMax p0 [p1]) },
              ?_, hfold, by rw [hfold]⟩
      simp [classify, hm, hv, hpr, hc0, label_map]
    · refine ⟨{ original_text := text, processed_text := preprocess text,
                prediction := "pengaduan", confidence := listMax p0 [p1],
                probabilities := [("layanan", p0), ("pengaduan", p1)],
                confidence_level := get_confidence_level (listMax p0 [p1]) },
              ?_, hfold, by rw [hfold]⟩
      simp [classify, hm, hv, hpr, hc1, label_map]
  obtain ⟨r, hr, hconf, hlvl⟩ := hok
  refine ⟨r, hr, hconf, ?_, ?_, ?_, ?_, ?_, ?_, ?_⟩
  · rw [hconf]; exact hmax.1
  · rw [hconf]; exact hmax.2
  · rw [hlvl, hconf]
  · rw [hlvl, hconf]; exact hspec.1
  · rw [hlvl, hconf]; exact hspec.2.1
  · rw [hlvl, hconf]; exact hspec.2.2.1
  · rw [hlvl, hconf]; exact hspec.2.2.2

/-- Witness for C10: the fixture model with probabilities 3/4 and 1/4 yields
confidence `max (3/4) (1/4)` with the medium-bucket characterisation. -/
theorem classify_confidence_spec_witness :
    c10FixtureState.model = some c10FixtureModel ∧
    ∃ r, classify id c10FixtureState "ID izin tidak ditemukan" = Except.ok r ∧
      r.confidence = max (3 / 4) (1 / 4) ∧
      (1 / 2 : ℚ) ≤ r.confidence ∧ r.confidence ≤ 1 ∧
      r.confidence_level = get_confidence_level r.confidence ∧
      (r.confidence_level = "very_high" ↔ 9 / 10 ≤ r.confidence) ∧
      (r.confidence_level = "high" ↔
        8 / 10 ≤ r.confidence ∧ r.confidence < 9 / 10) ∧
      (r.confidence_level = "medium" ↔
        6 / 10 ≤ r.confidence ∧ r.confidence < 8 / 10) ∧
      (r.confidence_level = "low" ↔ r.confidence < 6 / 10) :=
  ⟨rfl,
   classify_confidence_spec id c10FixtureState c10FixtureModel
     "ID izin tidak ditemukan" (3 / 4) (1 / 4) rfl rfl (Or.inr rfl) rfl
     (by norm_num) (by norm_num) (by norm_num)⟩

/-- When the filter of the route finds a row, committing the bumped counter adds
exactly one to the total call count, and re-running the filter afterwards
finds the same row with its counter incremented by one. -/
theorem incrementApiCalls_spec (model_id : String)
    (db : List DeployedModelRow) :
    ∀ row, db.find?
        (fun r => decide (r.id = model_id) && decide (r.status = "deployed")) =
        some row →
      ((incrementApiCalls model_id db).map (fun r => r.api_calls_count)).sum =
        (db.map (fun r => r.api_calls_count)).sum + 1 ∧
      (incrementApiCalls model_id db).find?
          (fun r => decide (r.id = model_id) && decide (r.status = "deployed")) =
        some { row with api_calls_count := row.api_calls_count + 1 } := by
  induction db with
  | nil => intro row h; simp at h
  | cons r rs ih =>
      intro row h
      by_cases hp : r.id = model_id ∧ r.status = "deployed"
      · have hpred :
            (decide (r.id = model_id) && decide (r.status = "deployed")) = true := by
          simp [hp.1, hp.2]
        simp only [List.find?, hpred] at h
        injection h with h
        subst h
        unfold incrementApiCalls
        rw [if_pos hp]
        constructor
        · simp only [List.map_cons, List.sum_cons]
          omega
        · simp [List.find?, hp.1, hp.2]
      · have hpred :
            (decide (r.id = model_id) && decide (r.status = "deployed")) = false := by
          simpa [Bool.and_eq_true, decide_eq_true_eq] using hp
        simp only [List.find?, hpred] at h
        obtain ⟨hsum, hfind⟩ := ih row h
        unfold incrementApiCalls
        rw [if_neg hp]
        constructor
        · simp only [List.map_cons, List.sum_cons, hsum]
          omega
        · simp only [List.find?, hpred]
          exact hfind

/-- C8: the prediction route answers 404 and leaves the table unchanged when
no row with the requested id has status `deployed`; when the filter finds a
row and the persisted artifact loads and yields a non-empty probability
vector, the route returns the prediction of that artifact with confidence
equal to the maximum class probability and increments the `api_calls_count`
of exactly that row by one. -/
theorem predict_route_serves_deployed_only
    (store : String → Option ArtifactModel) (db : List DeployedModelRow)
    (model_id text : String) :
    ((∀ r ∈ db, ¬ (r.id = model_id ∧ r.status = "deployed")) →
      predict_route store db model_id text =
        (db, Except.error (HttpError.notFound "Model not found or not deployed"))) ∧
    (∀ row m p ps,
      db.find?
          (fun r => decide (r.id = model_id) && decide (r.status = "deployed")) =
          some row →
      store row.model_path = some m →
      m.proba text = p :: ps →
      predict_route store db model_id text =
        (incrementApiCalls model_id db,
         Except.ok { prediction := m.predictLbl text,
                     confidence := listMax p ps,
                     model_version := row.version }) ∧
      ((incrementApiCalls model_id db).map (fun r => r.api_calls_count)).sum =
        (db.map (fun r => r.api_calls_count)).sum + 1 ∧
      (incrementApiCalls model_id db).find?
          (fun r => decide (r.id = model_id) && decide (r.status = "deployed")) =
        some { row with api_calls_count := row.api_calls_count + 1 }) := by
  constructor
  · intro hno
    have hfind : db.find?
        (fun r => decide (r.id = model_id) && decide (r.status = "deployed")) =
        none := by
      rw [List.find?_eq_none]
      intro r hr
      simp only [Bool.and_eq_true, decide_eq_true_eq, not_and]
      exact fun h1 h2 => hno r hr ⟨h1, h2⟩
    simp only [predict_route, hfind]
  · intro row m p ps hfind hstore hproba
    refine ⟨?_, incrementApiCalls_spec model_id db row hfind⟩
    simp only [predict_route, hfind, hstore, hproba]

/-- Witness for C8: on a one-row table with a deployed model at id `m1`, the
route returns the fixture prediction with confidence `max(3/4, 1/4)` and
bumps the call counter of the row. -/
theorem predict_route_serves_deployed_only_witness :
    c8FixtureDb.find?
        (fun r => decide (r.id = "m1") && decide (r.status = "deployed")) =
      some c8FixtureRow ∧
    predict_route c8FixtureStore c8FixtureDb "m1" "halo" =
      (incrementApiCalls "m1" c8FixtureDb,
       Except.ok { prediction := c8FixtureModel.predictLbl "halo",
                   confidence := listMax (3 / 4) [1 / 4],
                   model_version := c8FixtureRow.version }) :=
  ⟨rfl,
   ((predict_route_serves_deployed_only c8FixtureStore c8FixtureDb "m1"
      "halo").2 c8FixtureRow c8FixtureModel (3 / 4) [1 / 4] rfl rfl rfl).1⟩

/-- C9: the upload route rejects with HTTP 400 every file whose extension is
outside `{.csv, .xlsx, .xls, .json}` and every file whose reported size
exceeds 50 MB, and in those cases the persisted state — saved files, dataset
rows and column rows — is exactly the state before the request. -/
theorem upload_rejects_bad_extension_or_size (st : UploadState)
    (filename : String) (size : Option Nat) (projectOwned : Bool)
    (savedName : String) (pr : Option ProcessedFileInfo)
    (h : suffixLower filename ∉ allowed_extensions ∨
         ∃ n, size = some n ∧ uploadSizeLimit < n) :
    ∃ d, upload_file st filename size projectOwned savedName pr =
      (st, UploadOutcome.badRequest d) := by
  unfold upload_file
  by_cases hf : filename = ""
  · exact ⟨"No file provided", by rw [if_pos hf]⟩
  · rw [if_neg hf]
    by_cases hext : suffixLower filename ∈ allowed_extensions
    · rcases h with hbad | ⟨n, hn, hlim⟩
      · exact absurd hext hbad
      · subst hn
        rw [if_neg (fun hc => hc hext)]
        have hpos : 0 < n :=
          Nat.lt_trans (by norm_num [uploadSizeLimit]) hlim
        rw [if_pos (by simp [hpos, hlim])]
        exact ⟨_, rfl⟩
    · rw [if_pos hext]
      exact ⟨_, rfl⟩

/-- Witness for C9: an upload named `virus.exe` is rejected with a 400 and
the state (no files, no dataset rows, no column rows) is untouched. -/
theorem upload_rejects_bad_extension_or_size_witness :
    suffixLower "virus.exe" ∉ allowed_extensions ∧
    ∃ d, upload_file ⟨[], 0, 0⟩ "virus.exe" (some 1000) true "f_virus.exe" none =
      (⟨[], 0, 0⟩, UploadOutcome.badRequest d) :=
  ⟨by decide,
   upload_rejects_bad_extension_or_size ⟨[], 0, 0⟩ "virus.exe" (some 1000)
     true "f_virus.exe" none (Or.inl (by decide))⟩

end AIPlatform
